import Mathlib

/-!
Shallow embedding of the `BirthdayWish` React component
(`src/components/BirthdayWish.jsx` and its variants) and proofs about it.

The component is a single-page animated greeting card: a gift icon that,
when clicked, opens a 3D cake scene; blowing into the microphone (or
pressing a fallback button, or swiping down on a touch screen) sets the
`candlesBlown` flag, which removes the candle flames from the scene.

State updates are embedded as pure functions on explicit state records;
the browser event loop is embedded as a step function over an event type.
JS numbers that hold byte data are embedded as `Nat`; coordinates and the
computed volume average are embedded as `ℚ` (the averages the code
compares are exact: the data is integral and the division is a plain
quotient).
-/

namespace BirthdayWish

/-- JS `dataArray.reduce((a, b) => a + b, 0)`: a left fold of addition
starting at 0 over the frequency-data bytes. -/
def jsSum (l : List ℕ) : ℕ := l.foldl (fun a b => a + b) 0

/-- The arithmetic mean of a byte array, as a rational (mean of the empty
array is 0, matching the JS behaviour that `NaN > threshold` is false). -/
def byteMean (l : List ℕ) : ℚ := (l.sum : ℚ) / (l.length : ℚ)

/-- Result of one `checkVolume` pass in the main component: the new
`candlesBlown` flag, whether another animation frame was requested, and
whether the mic tracks were stopped and the audio context closed. -/
structure MicCheckResult where
  candlesBlown : Bool
  rescheduled : Bool
  tracksStopped : Bool
  contextClosed : Bool
deriving Repr, DecidableEq

/-- `checkVolume` from the main component (`BirthdayWish.jsx` lines
253-264): averages the frequency-data bytes; above 60 it sets
`candlesBlown`, stops every mic track and closes the audio context;
otherwise it leaves the flag alone and schedules the next frame. -/
def checkVolume (dataArray : List ℕ) (candlesBlown : Bool) : MicCheckResult :=
  let avg : ℚ := (jsSum dataArray : ℚ) / (dataArray.length : ℚ)
  if 60 < avg then
    { candlesBlown := true, rescheduled := false,
      tracksStopped := true, contextClosed := true }
  else
    { candlesBlown := candlesBlown, rescheduled := true,
      tracksStopped := false, contextClosed := false }

theorem jsSum_eq_sum (l : List ℕ) : jsSum l = l.sum := by
  have h : ∀ (l : List ℕ) (n : ℕ), l.foldl (fun a b => a + b) n = n + l.sum := by
    intro l
    induction l with
    | nil => intro n; simp
    | cons x xs ih =>
      intro n
      simp [List.foldl_cons, ih, List.sum_cons]
      ring
  simpa [jsSum] using h l 0

/-- C1: the measured volume in `checkVolume` is the arithmetic mean of all
bytes of the frequency-data array; `candlesBlown` becomes true exactly when
that mean is strictly greater than 60, and when the mean is 60 or below the
flag is left unchanged and the check is rescheduled. -/
theorem checkVolume_threshold_spec (d : List ℕ) (s : Bool) :
    ((checkVolume d s).candlesBlown = true ↔ (60 < byteMean d ∨ s = true)) ∧
    (byteMean d ≤ 60 →
      checkVolume d s =
        { candlesBlown := s, rescheduled := true,
          tracksStopped := false, contextClosed := false }) ∧
    (60 < byteMean d →
      checkVolume d s =
        { candlesBlown := true, rescheduled := false,
          tracksStopped := true, contextClosed := true }) := by
  have havg : ((jsSum d : ℚ) / (d.length : ℚ)) = byteMean d := by
    rw [jsSum_eq_sum, byteMean]
  constructor
  · by_cases h : 60 < byteMean d
    · simp [checkVolume, havg, h]
    · cases s <;> simp [checkVolume, havg, h]
  · constructor
    · intro h
      have h2 : ¬ 60 < byteMean d := not_lt.mpr h
      simp [checkVolume, havg, h2]
    · intro h
      simp [checkVolume, havg, h]

/-- Concrete instance of `checkVolume_threshold_spec`: two samples of mean
90 cross the threshold; a single byte of 60 does not. -/
theorem checkVolume_threshold_spec_witness :
    checkVolume [100, 80] false =
      { candlesBlown := true, rescheduled := false,
        tracksStopped := true, contextClosed := true } ∧
    checkVolume [60] true =
      { candlesBlown := true, rescheduled := true,
        tracksStopped := false, contextClosed := false } :=
  ⟨(checkVolume_threshold_spec [100, 80] false).2.2 (by norm_num [byteMean]),
   (checkVolume_threshold_spec [60] true).2.1 (by norm_num [byteMean])⟩

/-- A balloon of the main component: `{ id: i, popped: false }`. -/
structure Balloon where
  id : ℕ
  popped : Bool
deriving Repr, DecidableEq

/-- React state of the main component that the claims are about:
`opened`, `candlesBlown` and the balloon list. -/
structure WishState where
  opened : Bool
  candlesBlown : Bool
  balloons : List Balloon
deriving Repr, DecidableEq

/-- Initial state: gift closed, candles lit, six unpopped balloons. -/
def initState : WishState :=
  { opened := false, candlesBlown := false,
    balloons := (List.range 6).map (fun i => { id := i, popped := false }) }

/-- `handlePop` of the main component: map over the balloon list, setting
`popped := true` on the balloon whose id matches. -/
def handlePop (id : ℕ) (bs : List Balloon) : List Balloon :=
  bs.map (fun b => if b.id = id then { b with popped := true } else b)

/-- The user / browser events that update the state of the main component. -/
inductive WishEvent where
  | giftClick
  | blowButtonClick
  | micSample (dataArray : List ℕ)
  | balloonPop (id : ℕ)
deriving Repr, DecidableEq

/-- One state transition of the main component. The `onClick` of the gift sets
`opened := true`; the `onClick` of the fallback button sets
`candlesBlown := true`; a mic sample runs `checkVolume` (the mic effect is
active only while `opened && !candlesBlown`, since the effect body returns
early otherwise); a balloon pop runs `handlePop`. -/
def wishStep (s : WishState) : WishEvent → WishState
  | WishEvent.giftClick => { s with opened := true }
  | WishEvent.blowButtonClick => { s with candlesBlown := true }
  | WishEvent.micSample d =>
      if s.opened && !s.candlesBlown then
        { s with candlesBlown := (checkVolume d s.candlesBlown).candlesBlown }
      else s
  | WishEvent.balloonPop id => { s with balloons := handlePop id s.balloons }

/-- What one candle of `Cake3D` renders: the flame mesh is present or not. -/
structure CandleView where
  flame : Bool
deriving Repr, DecidableEq

/-- The candle list of `Cake3D` (main component lines 27-51): five candles,
each rendering its flame mesh exactly when `!candlesBlown`. (The cos/sin
placement of the candles is purely positional and not modelled.) -/
def cake3D (candlesBlown : Bool) : List CandleView :=
  (List.range 5).map (fun _ => { flame := !candlesBlown })

/-- What the scene modal renders, as far as the claims are concerned. -/
structure SceneView where
  candles : List CandleView
  balloonIdsShown : List ℕ
  fireworkCount : ℕ
  blowButton : Bool
  blownMessage : Bool
deriving Repr, DecidableEq

/-- The scene modal contents (main component lines 302-368): the cake with
its candles, the unpopped balloons, three fireworks once blown, and the
blow button / blown message toggle. -/
def renderScene (s : WishState) : SceneView :=
  { candles := cake3D s.candlesBlown
  , balloonIdsShown := (s.balloons.filter (fun b => !b.popped)).map (fun b => b.id)
  , fireworkCount := if s.candlesBlown then 3 else 0
  , blowButton := !s.candlesBlown
  , blownMessage := s.candlesBlown }

/-- The top-level render output of the main component. -/
structure View where
  gift : Bool
  confetti : Bool
  scene : Option SceneView
deriving Repr, DecidableEq

/-- The JSX of the main component (lines 277-369): the gift icon renders exactly
when `!opened`; the confetti overlay and the scene modal render exactly
when `opened`. -/
def renderBirthdayWish (s : WishState) : View :=
  { gift := !s.opened
  , confetti := s.opened
  , scene := if s.opened then some (renderScene s) else none }

/-- The body of `enableMic` up to the try/catch boundary: `getUserMedia`
either yields a stream (whose first frequency sample then drives
`checkVolume`) or rejects, and the rejection propagates to the `catch`. -/
def enableMicBody (req : Except String (List ℕ)) (s : WishState) :
    Except String WishState :=
  match req with
  | Except.error e => Except.error e
  | Except.ok d =>
      Except.ok { s with candlesBlown := (checkVolume d s.candlesBlown).candlesBlown }

/-- `enableMic` of the main component (lines 242-268): the whole body is
wrapped in try/catch, so a `getUserMedia` rejection is caught, a warning is
logged (the returned `Bool`), and the state is returned unchanged; no
exception escapes (the function is total). -/
def enableMic (req : Except String (List ℕ)) (s : WishState) : WishState × Bool :=
  match enableMicBody req s with
  | Except.ok s2 => (s2, false)
  | Except.error _ => (s, true)

/-- C2: clicking the gift sets `opened := true`; the rendered output shows
the gift icon exactly when `opened` is false, and the confetti overlay and
scene modal exactly when `opened` is true; hence after a single gift click
the scene is shown and the gift is gone. -/
theorem gift_click_reveals_scene (s : WishState) :
    ((renderBirthdayWish s).gift = true ↔ s.opened = false) ∧
    ((renderBirthdayWish s).confetti = true ↔ s.opened = true) ∧
    ((renderBirthdayWish s).scene.isSome = true ↔ s.opened = true) ∧
    (wishStep s WishEvent.giftClick).opened = true ∧
    (renderBirthdayWish (wishStep s WishEvent.giftClick)).scene =
      some (renderScene (wishStep s WishEvent.giftClick)) ∧
    (renderBirthdayWish (wishStep s WishEvent.giftClick)).gift = false := by
  cases h : s.opened <;>
    simp [renderBirthdayWish, wishStep, h]

/-- C5: if `getUserMedia` rejects, the rejection is caught inside
`enableMic`: the warning flag is the only effect, the state (in particular
`opened` and `candlesBlown`) is unchanged, and since `enableMic` is a total
function no exception propagates. -/
theorem mic_denied_silent (e : String) (s : WishState) :
    enableMic (Except.error e) s = (s, true) ∧
    (enableMic (Except.error e) s).1.opened = s.opened ∧
    (enableMic (Except.error e) s).1.candlesBlown = s.candlesBlown := by
  simp [enableMic, enableMicBody]

/-- C6: `Cake3D` renders exactly 5 candles; each carries a flame iff
`candlesBlown` is false, and with `candlesBlown = true` no flame remains. -/
theorem cake_candles_flames (b : Bool) :
    (cake3D b).length = 5 ∧
    ((cake3D b).all fun c => c.flame == !b) = true ∧
    ((cake3D true).all fun c => c.flame == false) = true := by
  cases b <;> decide

/-- Resource / UI state touched by the `analyze` loop of the variant
component (part_004): the blown flag, the five flame intensities, whether
the mic tracks are still live, whether the audio context is still open,
the `listening` flag and whether another animation frame is scheduled. -/
structure AnalyzeState where
  candlesBlown : Bool
  flameIntensities : List ℚ
  micTracksLive : Bool
  audioCtxOpen : Bool
  listening : Bool
  rafScheduled : Bool
deriving Repr, DecidableEq

/-- The inner loop `for (j = i*chunk; j < (i+1)*chunk && j < arr.length; j++)
s += arr[j]` of the variant `analyze`. -/
def chunkSum (arr : List ℕ) (chunk i : ℕ) : ℕ :=
  ((List.range chunk).map (fun j =>
    if i * chunk + j < arr.length then arr.getD (i * chunk + j) 0 else 0)).sum

/-- The flame-intensity mapping of the variant `analyze` (part_004 lines
389-394): split the array into 5 chunks and normalise each chunk sum into
[0.18, 2.3]. -/
def newIntensities (arr : List ℕ) : List ℚ :=
  let chunk := max 1 (arr.length / 5)
  (List.range 5).map (fun i =>
    min ((23 : ℚ) / 10)
      (max ((18 : ℚ) / 100) ((chunkSum arr chunk i : ℚ) / ((chunk : ℚ) * 28))))

/-- One pass of `analyze` in the variant component (part_004 lines
379-413): compute the average, update the flame intensities, and above
threshold 82 set `candlesBlown`, stop every mic track, close the audio
context, clear `listening` and return without scheduling another frame;
otherwise request the next animation frame. -/
def analyze (arr : List ℕ) (st : AnalyzeState) : AnalyzeState :=
  let avg : ℚ := (jsSum arr : ℚ) / (arr.length : ℚ)
  let st1 := { st with flameIntensities := newIntensities arr }
  if 82 < avg then
    { st1 with candlesBlown := true, micTracksLive := false,
               audioCtxOpen := false, listening := false, rafScheduled := false }
  else
    { st1 with rafScheduled := true }

/-- The effect teardown of the variant component (part_004 lines 423-434):
cancel the pending animation frame, stop every mic track, close the audio
context and clear `listening`. -/
def effectCleanup (st : AnalyzeState) : AnalyzeState :=
  { st with rafScheduled := false, micTracksLive := false,
            audioCtxOpen := false, listening := false }

/-- C3: once the volume threshold is crossed in the mic check, every mic
track is stopped, the audio context is closed and no further check is
scheduled — both in the variant `analyze` (threshold 82) and in the main
`checkVolume` (threshold 60) — and the effect teardown of the variant performs
the same cleanup unconditionally. -/
theorem mic_cleanup_after_threshold :
    (∀ arr st, 82 < byteMean arr →
      (analyze arr st).micTracksLive = false ∧
      (analyze arr st).audioCtxOpen = false ∧
      (analyze arr st).rafScheduled = false ∧
      (analyze arr st).listening = false ∧
      (analyze arr st).candlesBlown = true) ∧
    (∀ st, (effectCleanup st).micTracksLive = false ∧
      (effectCleanup st).audioCtxOpen = false ∧
      (effectCleanup st).rafScheduled = false) ∧
    (∀ d s, 60 < byteMean d →
      (checkVolume d s).tracksStopped = true ∧
      (checkVolume d s).contextClosed = true ∧
      (checkVolume d s).rescheduled = false) := by
  refine ⟨?_, ?_, ?_⟩
  · intro arr st h
    have havg : ((jsSum arr : ℚ) / (arr.length : ℚ)) = byteMean arr := by
      rw [jsSum_eq_sum, byteMean]
    simp [analyze, havg, h]
  · intro st
    simp [effectCleanup]
  · intro d s h
    have havg : ((jsSum d : ℚ) / (d.length : ℚ)) = byteMean d := by
      rw [jsSum_eq_sum, byteMean]
    simp [checkVolume, havg, h]

/-- Concrete instance of `mic_cleanup_after_threshold`: a loud sample
(every byte 200) releases the mic and context in both variants. -/
theorem mic_cleanup_after_threshold_witness :
    (analyze [200, 200] ⟨false, [1, 1, 1, 1, 1], true, true, true, true⟩).micTracksLive = false ∧
    (checkVolume [200, 200] false).rescheduled = false :=
  ⟨(mic_cleanup_after_threshold.1 [200, 200] _ (by norm_num [byteMean])).1,
   (mic_cleanup_after_threshold.2.2 [200, 200] false (by norm_num [byteMean])).2.2⟩

/-- State touched by the swipe-gesture handlers of the variant components
(part_001 / part_004): the recorded touch-start Y (`touchStartY.current`,
`null` when absent) and the blown flag. -/
structure TouchState where
  touchStartY : Option ℚ
  candlesBlown : Bool
deriving Repr, DecidableEq

/-- `handleTouchStart`: if the event carries a first touch, record its
`clientY`; otherwise do nothing. -/
def handleTouchStart (touch : Option ℚ) (st : TouchState) : TouchState :=
  match touch with
  | some y => { st with touchStartY := some y }
  | none => st

/-- `handleTouchEnd` of the swipe variants:
`if (!t || !touchStartY.current) return;` — note that the JS truthiness
test also returns early when the recorded start Y is the number 0 —
then `if (touchStartY.current - t.clientY > 60) setCandlesBlown(true);`
and finally `touchStartY.current = null`. -/
def handleTouchEnd (touch : Option ℚ) (st : TouchState) : TouchState :=
  match touch with
  | none => st
  | some endY =>
    match st.touchStartY with
    | none => st
    | some startY =>
      if startY = 0 then st
      else
        { touchStartY := none
        , candlesBlown := if 60 < startY - endY then true else st.candlesBlown }

/-- C4, counterexample: a recorded touch start position of Y = 0 (a touch
at the very top edge) falsifies the claim — `handleTouchEnd` returns early
on the JS falsy test `!touchStartY.current`, so the stored start position
is NOT cleared afterwards. -/
theorem touchEnd_zero_start_not_cleared :
    (handleTouchEnd (some 5) { touchStartY := some 0, candlesBlown := false }).touchStartY
      = some 0 ∧
    ¬ (handleTouchEnd (some 5) { touchStartY := some 0, candlesBlown := false }).touchStartY
      = none := by
  refine ⟨?_, ?_⟩ <;> simp [handleTouchEnd]

/-- C4, amended: provided the recorded start Y is nonzero (so the JS
truthiness guard passes), `handleTouchEnd` on a touch end sets
`candlesBlown` to true exactly when recorded start Y minus end Y exceeds
60, leaves it unchanged for any smaller displacement, and clears the
stored start position. -/
theorem touchEnd_blow_amended (startY endY : ℚ) (cb : Bool) (h : startY ≠ 0) :
    handleTouchEnd (some endY) { touchStartY := some startY, candlesBlown := cb } =
      { touchStartY := none
      , candlesBlown := if 60 < startY - endY then true else cb } := by
  simp [handleTouchEnd, h]

/-- Concrete instance of `touchEnd_blow_amended`: a swipe from Y = 100 up
to Y = 10 (displacement 90 > 60) blows the candles and clears the stored
start position. -/
theorem touchEnd_blow_amended_witness :
    handleTouchEnd (some 10) { touchStartY := some 100, candlesBlown := false } =
      { touchStartY := none, candlesBlown := true } :=
  (touchEnd_blow_amended 100 10 false (by norm_num)).trans (by norm_num)

/-- The camera field-of-view of `ResponsiveCanvas` in the main component
(line 208): `size.width < 640 ? 65 : size.width < 1024 ? 55 : 50`. -/
def fov (width : ℕ) : ℕ :=
  if width < 640 then 65 else if width < 1024 then 55 else 50

/-- The field-of-view of the variant `ResponsiveCanvas` (part_004 line
280): `size.width < 420 ? 72 : size.width < 768 ? 62 : 50`. -/
def fovVariant (width : ℕ) : ℕ :=
  if width < 420 then 72 else if width < 768 then 62 else 50

/-- C8: the main `ResponsiveCanvas` fov is 65 below width 640, 55 between
640 and 1024, and 50 from 1024 up, and both the main and the variant fov
are non-increasing step functions of the container width. -/
theorem fov_step_antitone :
    (∀ w, (w < 640 → fov w = 65) ∧
          (640 ≤ w → w < 1024 → fov w = 55) ∧
          (1024 ≤ w → fov w = 50)) ∧
    (∀ w1 w2, w1 ≤ w2 → fov w2 ≤ fov w1) ∧
    (∀ w1 w2, w1 ≤ w2 → fovVariant w2 ≤ fovVariant w1) := by
  refine ⟨?_, ?_, ?_⟩
  · intro w
    refine ⟨fun h => ?_, fun h1 h2 => ?_, fun h => ?_⟩ <;>
      · simp only [fov]; split_ifs <;> omega
  · intro w1 w2 h
    simp only [fov]
    split_ifs <;> omega
  · intro w1 w2 h
    simp only [fovVariant]
    split_ifs <;> omega

/-- Concrete instance of `fov_step_antitone`: a 320-px container gets fov
65, a 1280-px one gets 50, and antitonicity holds between them. -/
theorem fov_step_antitone_witness :
    fov 320 = 65 ∧ fov 1280 = 50 ∧ fov 1280 ≤ fov 320 ∧ fovVariant 800 ≤ fovVariant 400 :=
  ⟨(fov_step_antitone.1 320).1 (by decide),
   (fov_step_antitone.1 1280).2.2 (by decide),
   fov_step_antitone.2.1 320 1280 (by decide),
   fov_step_antitone.2.2 400 800 (by decide)⟩

/-- State of the delayed-message variants (part_000 / part_003): the three
flags plus whether the 3000 ms `setTimeout` started by the
`[candlesBlown]` effect is pending. -/
structure MsgState where
  opened : Bool
  candlesBlown : Bool
  showMessage : Bool
  timerPending : Bool
deriving Repr, DecidableEq

/-- Initial state of the delayed-message variants: all flags false. -/
def msgInit : MsgState :=
  { opened := false, candlesBlown := false,
    showMessage := false, timerPending := false }

/-- Events of the delayed-message variants: the gift click, any of the
blow triggers (voice threshold or button — both only set
`candlesBlown := true`, upon which the `[candlesBlown]` effect starts the
3000 ms timer), and the timer firing (`setShowMessage(true)`). -/
inductive MsgEvent where
  | giftClick
  | blow
  | timerFire
deriving Repr, DecidableEq

/-- One transition of the delayed-message variants. The timer can only
fire while it is pending, and it is made pending exactly by the effect
that runs when `candlesBlown` becomes true. -/
def msgStep (s : MsgState) : MsgEvent → MsgState
  | MsgEvent.giftClick => { s with opened := true }
  | MsgEvent.blow => { s with candlesBlown := true, timerPending := true }
  | MsgEvent.timerFire =>
      if s.timerPending then
        { s with showMessage := true, timerPending := false }
      else s

/-- The states of the delayed-message variants reachable from the initial
state by any sequence of events. -/
inductive MsgReachable : MsgState → Prop where
  | init : MsgReachable msgInit
  | step : ∀ {s : MsgState}, MsgReachable s → ∀ e : MsgEvent, MsgReachable (msgStep s e)

/-- C7: in every reachable state of the delayed-message variants,
`showMessage` implies `candlesBlown` (and the pending timer also implies
`candlesBlown`): the message can only appear after the candles are blown,
because the only transition setting `showMessage` is the timer started
when `candlesBlown` becomes true. -/
theorem showMessage_requires_blown (s : MsgState) (h : MsgReachable s) :
    (s.showMessage = true → s.candlesBlown = true) ∧
    (s.timerPending = true → s.candlesBlown = true) := by
  induction h with
  | init => simp [msgInit]
  | step h e ih =>
    rename_i s0
    cases e with
    | giftClick => simpa [msgStep] using ih
    | blow => simp [msgStep]
    | timerFire =>
      by_cases hp : s0.timerPending
      · simp only [msgStep, hp, if_true]
        exact ⟨fun _ => ih.2 hp, fun _ => ih.2 hp⟩
      · simpa [msgStep, hp] using ih
/-- Concrete instance of `showMessage_requires_blown`: after blowing and
the timer firing, the state shows the message and indeed has
`candlesBlown = true`. -/
theorem showMessage_requires_blown_witness :
    (msgStep (msgStep msgInit MsgEvent.blow) MsgEvent.timerFire).candlesBlown = true :=
  (showMessage_requires_blown _
      (MsgReachable.step (MsgReachable.step MsgReachable.init MsgEvent.blow)
        MsgEvent.timerFire)).1
    (by decide)

/-- C9: `opened` and `candlesBlown` are monotone: every handler and effect
of the main component (`wishStep`), the variant analyser, the swipe
handlers and the delayed-message machine can only turn them from false to
true, never back. -/
theorem flags_monotone :
    (∀ s e, s.opened = true → (wishStep s e).opened = true) ∧
    (∀ s e, s.candlesBlown = true → (wishStep s e).candlesBlown = true) ∧
    (∀ arr st, st.candlesBlown = true → (analyze arr st).candlesBlown = true) ∧
    (∀ st, (effectCleanup st).candlesBlown = st.candlesBlown) ∧
    (∀ t st, st.candlesBlown = true → (handleTouchEnd t st).candlesBlown = true) ∧
    (∀ t st, (handleTouchStart t st).candlesBlown = st.candlesBlown) ∧
    (∀ s e, s.opened = true → (msgStep s e).opened = true) ∧
    (∀ s e, s.candlesBlown = true → (msgStep s e).candlesBlown = true) := by
  refine ⟨?_, ?_, ?_, ?_, ?_, ?_, ?_, ?_⟩
  · intro s e h
    cases e <;> simp [wishStep, h] <;> split <;> simp [h]
  · intro s e h
    cases e <;> simp [wishStep, h]
  · intro arr st h
    simp only [analyze]
    split <;> simp [h]
  · intro st
    simp [effectCleanup]
  · intro t st h
    cases t with
    | none => simpa [handleTouchEnd] using h
    | some endY =>
      cases hs : st.touchStartY with
      | none => simpa [handleTouchEnd, hs] using h
      | some startY =>
        by_cases h0 : startY = 0
        · simpa [handleTouchEnd, hs, h0] using h
        · simp only [handleTouchEnd, hs, h0, if_false]
          split <;> simp [h]
  · intro t st
    cases t <;> simp [handleTouchStart]
  · intro s e h
    cases e <;> simp [msgStep, h] <;> split <;> simp [h]
  · intro s e h
    cases e <;> simp [msgStep, h] <;> split <;> simp [h]

/-- Concrete instance of `flags_monotone`: an opened state stays opened
across a gift click, and blown candles stay blown across a mic sample. -/
theorem flags_monotone_witness :
    (wishStep { opened := true, candlesBlown := false, balloons := [] }
        WishEvent.giftClick).opened = true ∧
    (wishStep { opened := true, candlesBlown := true, balloons := [] }
        (WishEvent.micSample [0])).candlesBlown = true :=
  ⟨flags_monotone.1 _ WishEvent.giftClick rfl,
   flags_monotone.2.1 _ (WishEvent.micSample [0]) rfl⟩

/-- A 3D position, as used by the balloons of the variant and burst points. -/
structure Vec3 where
  x : ℚ
  y : ℚ
  z : ℚ
deriving Repr, DecidableEq

/-- A balloon of the variant component (part_004): a string id
(`b-i-timestamp-random`) and a position. -/
structure VBalloon where
  id : String
  pos : Vec3
deriving Repr, DecidableEq

/-- A burst particle of the variant component: spawn position, colour and
velocity. -/
structure BurstPoint where
  pos : Vec3
  color : String
  vel : Vec3
deriving Repr, DecidableEq

/-- `BURST_PARTICLES` of the variant component (part_004 line 14). -/
def BURST_PARTICLES : ℕ := 10

/-- `handleBalloonPop` of the variant component (part_004 lines 466-474):
filter the popped id out of the balloon list and append
`BURST_PARTICLES` burst particles at the world position of the popped balloon
(colour and velocity drawn from `Math.random`, here passed in as choice
functions). -/
def handleBalloonPop (id : String) (worldPos : Vec3)
    (randColor : ℕ → String) (randVel : ℕ → Vec3)
    (balloons : List VBalloon) (bursts : List BurstPoint) :
    List VBalloon × List BurstPoint :=
  (balloons.filter (fun b => b.id ≠ id),
   bursts ++ (List.range BURST_PARTICLES).map
     (fun i => { pos := worldPos, color := randColor i, vel := randVel i }))

/-- C10: balloon popping only touches the matching balloon. In the main
component, `handlePop` preserves the list length and maps each entry to
itself unless its id matches, in which case only `popped` is set. In the
variant, `handleBalloonPop` keeps every non-matching balloon unchanged,
keeps nothing that matches, leaves the existing burst points in place and
appends exactly `BURST_PARTICLES` new particles at the pop position. -/
theorem balloon_pop_frame :
    (∀ id bs, (handlePop id bs).length = bs.length) ∧
    (∀ id bs i, (handlePop id bs).get? i =
      (bs.get? i).map (fun b => if b.id = id then { b with popped := true } else b)) ∧
    (∀ id bs b, b ∈ bs → b.id ≠ id → b ∈ handlePop id bs) ∧
    (∀ id pos rc rv bls pts,
      (∀ b ∈ bls, b.id ≠ id → b ∈ (handleBalloonPop id pos rc rv bls pts).1) ∧
      (∀ b ∈ (handleBalloonPop id pos rc rv bls pts).1, b ∈ bls ∧ b.id ≠ id) ∧
      (handleBalloonPop id pos rc rv bls pts).2.length =
        pts.length + BURST_PARTICLES ∧
      (∀ i, i < pts.length →
        (handleBalloonPop id pos rc rv bls pts).2.get? i = pts.get? i) ∧
      (∀ p ∈ (handleBalloonPop id pos rc rv bls pts).2, p ∈ pts ∨ p.pos = pos)) := by
  refine ⟨?_, ?_, ?_, ?_⟩
  · intro id bs
    simp [handlePop]
  · intro id bs i
    simp [handlePop, List.getElem?_map]
  · intro id bs b hb hne
    have : (if b.id = id then { b with popped := true } else b) = b := by
      simp [hne]
    rw [handlePop]
    exact this ▸ List.mem_map_of_mem _ hb
  · intro id pos rc rv bls pts
    refine ⟨?_, ?_, ?_, ?_, ?_⟩
    · intro b hb hne
      simp [handleBalloonPop, List.mem_filter, hb, hne]
    · intro b hb
      simp only [handleBalloonPop, List.mem_filter, decide_eq_true_eq] at hb
      exact hb
    · simp [handleBalloonPop]
    · intro i hi
      simp [handleBalloonPop, List.getElem?_append_left hi]
    · intro p hp
      simp only [handleBalloonPop, List.mem_append, List.mem_map,
        List.mem_range] at hp
      rcases hp with h | ⟨j, _, rfl⟩
      · exact Or.inl h
      · exact Or.inr rfl

/-- Concrete instance of `balloon_pop_frame`: popping balloon id 0 in a
two-balloon list keeps balloon 1 untouched, both in the main component and
in the variant. -/
theorem balloon_pop_frame_witness :
    ({ id := 1, popped := false } : Balloon) ∈
      handlePop 0 [{ id := 0, popped := false }, { id := 1, popped := false }] ∧
    ({ id := "b1", pos := ⟨0, 0, 0⟩ } : VBalloon) ∈
      (handleBalloonPop "b0" ⟨1, 2, 3⟩ (fun _ => "c") (fun _ => ⟨0, 0, 0⟩)
        [{ id := "b0", pos := ⟨1, 2, 3⟩ }, { id := "b1", pos := ⟨0, 0, 0⟩ }] []).1 :=
  ⟨balloon_pop_frame.2.2.1 0 _ _ (by simp) (by decide),
   (balloon_pop_frame.2.2.2 "b0" ⟨1, 2, 3⟩ (fun _ => "c") (fun _ => ⟨0, 0, 0⟩)
       [{ id := "b0", pos := ⟨1, 2, 3⟩ }, { id := "b1", pos := ⟨0, 0, 0⟩ }] []).1
     _ (by simp) (by decide)⟩

end BirthdayWish
